import Mathlib

/-!
Verification development for the PowerOP_ML optimization engines:
the thermal-comfort scoring engine (`src/optimization/comfort_optimization.py`)
and the energy cost/consumption analysis (`src/optimization/energy_optimization.py`).

Python floats are embedded as exact real numbers (`ℝ`) where transcendental
functions (`exp`, `sqrt`) occur, and as exact rationals (`ℚ`) in the purely
arithmetic energy engine so that results are computable.  Python exceptions
are embedded with `Except`.
-/

namespace PowerOP

/-- Embeds `utils/exceptions.py` `OptimizationError`: a typed error carrying a
human-readable message. -/
structure OptimizationError where
  msg : String
  deriving DecidableEq

/-! ## Comfort engine data model (`comfort_optimization.py`) -/

/-- Embeds the `ComfortMetrics` dataclass (lines 13-21). -/
structure ComfortMetrics where
  pmv : ℝ
  ppd : ℝ
  co2_level : ℝ
  air_quality : ℝ
  temperature_deviation : ℝ
  humidity_deviation : ℝ

/-- `self.temp_weight` from `ComfortOptimizer.__init__`. -/
noncomputable def temp_weight : ℝ := 0.4

/-- `self.humidity_weight` from `ComfortOptimizer.__init__`. -/
noncomputable def humidity_weight : ℝ := 0.3

/-- `self.air_quality_weight` from `ComfortOptimizer.__init__`. -/
noncomputable def air_quality_weight : ℝ := 0.3

/-- `self.metabolic_rate` from `ComfortOptimizer.__init__`. -/
noncomputable def metabolic_rate : ℝ := 1.2

/-- `self.clothing_insulation` from `ComfortOptimizer.__init__`. -/
noncomputable def clothing_insulation : ℝ := 1.0

/-- Water vapor pressure `pa` (line 131 of `comfort_optimization.py`):
`rh * 10 * exp(16.6536 - 4030.183 / (ta + 235))`. -/
noncomputable def calc_pa (ta rh : ℝ) : ℝ :=
  rh * 10 * Real.exp (16.6536 - 4030.183 / (ta + 235))

/-- Clothing insulation `ICL = 0.155 * clo` (line 128). -/
noncomputable def calc_icl (clo : ℝ) : ℝ := 0.155 * clo

/-- Clothing area factor `fcl = 1.05 + 0.645 * ICL` (line 134). -/
noncomputable def calc_fcl (clo : ℝ) : ℝ := 1.05 + 0.645 * calc_icl clo

/-- Convective coefficient `hc = 12.1 * sqrt(va)` (line 135). -/
noncomputable def calc_hc (va : ℝ) : ℝ := 12.1 * Real.sqrt va

/-- Clothing surface temperature `tcl` (line 137):
`ta + (35.5 - ta) / (3.5 * (6.45 * ICL + 0.1))`. -/
noncomputable def calc_tcl (ta clo : ℝ) : ℝ :=
  ta + (35.5 - ta) / (3.5 * (6.45 * calc_icl clo + 0.1))

/-- Thermal load `L` (lines 143-146 of `_calculate_pmv`).  The radiative
coefficient `hr` computed on line 140 is assigned but never read in the
Python function, so it does not appear in the value; its division is
modelled by `calculate_comfort_metrics_run` below. -/
noncomputable def calc_load (ta tr rh va met clo : ℝ) : ℝ :=
  let M := met * 58.15
  let W : ℝ := 0
  let pa := calc_pa ta rh
  let fcl := calc_fcl clo
  let hc := calc_hc va
  let tcl := calc_tcl ta clo
  M - W - 3.96e-8 * fcl * ((tcl + 273) ^ 4 - (tr + 273) ^ 4)
    - fcl * hc * (tcl - ta) - 3.05 * (5.73 - 0.007 * M - pa)
    - 0.42 * (M - 58.15) - 0.0173 * M * (5.87 - pa)
    - 0.0014 * M * (34 - ta)

/-- `_calculate_pmv` (lines 113-149): `(0.303 * exp(-0.036*M) + 0.028) * L`. -/
noncomputable def calculate_pmv (ta tr rh va met clo : ℝ) : ℝ :=
  (0.303 * Real.exp (-0.036 * (met * 58.15)) + 0.028) * calc_load ta tr rh va met clo

/-- PPD from PMV (line 85): `100 - 95 * exp(-0.03353*pmv^4 - 0.2179*pmv^2)`. -/
noncomputable def ppd_of (p : ℝ) : ℝ :=
  100 - 95 * Real.exp (-0.03353 * p ^ 4 - 0.2179 * p ^ 2)

/-- Modelled from the spec: "`PPD = 100 − 95*exp(−0.03353*PMV⁴ − 0.2179*PMV²)`,
clamped to [0,100]" — the clamped variant claimed by the specification, for
comparison with the unclamped code value `ppd_of`. -/
noncomputable def ppd_spec_clamped (p : ℝ) : ℝ :=
  max 0 (min 100 (100 - 95 * Real.exp (-0.03353 * p ^ 4 - 0.2179 * p ^ 2)))

/-- `_calculate_air_quality_index` (lines 151-160), with the optimal CO2 range
(400, 1000) from `__init__`. -/
noncomputable def calculate_air_quality_index (co2 : ℝ) : ℝ :=
  if co2 ≤ 400 then 100
  else if 1000 ≤ co2 then 0
  else 100 * (1 - (co2 - 400) / (1000 - 400))

/-- Temperature deviation (lines 91-94): `min(|t - 20|, |t - 24|)` with the
optimal range (20, 24) from `__init__`. -/
noncomputable def temp_deviation (t : ℝ) : ℝ := min |t - 20| |t - 24|

/-- Humidity deviation (lines 96-99): `min(|h - 40|, |h - 60|)` with the
optimal range (40, 60) from `__init__`. -/
noncomputable def hum_deviation (h : ℝ) : ℝ := min |h - 40| |h - 60|

/-- Modelled from the spec: "distance to nearest edge of the optimal band
(20-24 °C, 40-60% RH); 0 if inside the band" — the deviation function the
specification claims, for comparison with the code's `min` of edge distances. -/
noncomputable def band_distance (x lo hi : ℝ) : ℝ :=
  if x < lo then lo - x else if hi < x then x - hi else 0

/-- `calculate_comfort_metrics` (lines 49-108), value part: the `ComfortMetrics`
record built on lines 101-108.  `mean_radiant_temp = none` embeds the omitted
optional argument, defaulting to the air temperature (line 72). -/
noncomputable def calculate_comfort_metrics (temperature humidity co2_level air_speed : ℝ)
    (mean_radiant_temp : Option ℝ) : ComfortMetrics :=
  let mrt := mean_radiant_temp.getD temperature
  let pmv := calculate_pmv temperature mrt humidity air_speed metabolic_rate clothing_insulation
  { pmv := pmv
    ppd := ppd_of pmv
    co2_level := co2_level
    air_quality := calculate_air_quality_index co2_level
    temperature_deviation := temp_deviation temperature
    humidity_deviation := hum_deviation humidity }

/-- `calculate_comfort_metrics` with its failure behaviour: line 140 of
`_calculate_pmv` divides by `(tcl - tr)` with no guard, so when `tcl = tr`
Python raises `ZeroDivisionError`, which the `except` block on lines 110-111
re-raises as `OptimizationError`.  Otherwise the metrics record is returned. -/
noncomputable def calculate_comfort_metrics_run (temperature humidity co2_level air_speed : ℝ)
    (mean_radiant_temp : Option ℝ) : Except OptimizationError ComfortMetrics :=
  let mrt := mean_radiant_temp.getD temperature
  if calc_tcl temperature clothing_insulation - mrt = 0 then
    Except.error ⟨"Failed to calculate comfort metrics: float division by zero"⟩
  else
    Except.ok (calculate_comfort_metrics temperature humidity co2_level air_speed mean_radiant_temp)

/-- `_calculate_comfort_score` (lines 299-315). -/
noncomputable def calculate_comfort_score (m : ComfortMetrics) : ℝ :=
  let pmv_score := 100 * (1 - |m.pmv| / 3)
  let ppd_score := 100 - m.ppd
  let air_score := m.air_quality
  temp_weight * pmv_score + humidity_weight * ppd_score + air_quality_weight * air_score

/-- Modelled from the spec: "Weighted blend:
`0.4*(100*(1−|PMV|/3)) + 0.3*(100−PPD) + 0.3*air_quality`" — the literal blend
formula from the specification, for comparison with `calculate_comfort_score`. -/
noncomputable def comfort_score_spec (m : ComfortMetrics) : ℝ :=
  0.4 * (100 * (1 - |m.pmv| / 3)) + 0.3 * (100 - m.ppd) + 0.3 * m.air_quality

/-! ## Recommendation validation (`comfort_optimization.py`, lines 274-297) -/

/-- A candidate recommendation: the dict fields `_validate_recommendations`
touches (declared `energy_impact`, the `validated` flag it sets) plus an
opaque payload tag distinguishing candidates. -/
structure Recommendation where
  energy_impact : Option ℚ
  validated : Bool
  tag : ℕ
  deriving DecidableEq

/-- Python truthiness of the optional float `energy_constraint`: `None` and
`0.0` are falsy, every other float is truthy. -/
def pyTruthy : Option ℚ → Bool
  | none => false
  | some x => decide (x ≠ 0)

/-- `_validate_recommendations` (lines 274-297).  `prefOk` abstracts the
`_check_preference_compliance` helper, which is called on line 290 but not
defined anywhere in the repository source; the claim under study is
independent of it.  A candidate is skipped when
`energy_constraint and rec.get("energy_impact", 0) > energy_constraint`
(line 286) or when the preference check fails (line 290); survivors are
marked `validated = True` (line 294). -/
def validate_recommendations (metrics : ComfortMetrics) (prefOk : Recommendation → Bool)
    (energy_constraint : Option ℚ) : List Recommendation → List Recommendation
  | [] => []
  | r :: rs =>
    if pyTruthy energy_constraint && decide (energy_constraint.getD 0 < r.energy_impact.getD 0) then
      validate_recommendations metrics prefOk energy_constraint rs
    else if !prefOk r then
      validate_recommendations metrics prefOk energy_constraint rs
    else
      { r with validated := true } :: validate_recommendations metrics prefOk energy_constraint rs

/-! ## Energy engine data model (`energy_optimization.py`) -/

/-- One point of the historical series consumed by `analyze_energy_consumption`:
the dataframe columns the energy computations read (`hour`, `active_power`,
`energy_consumption`, `outside_temp`). -/
structure EnergySeriesPoint where
  hour : ℕ
  active_power : ℚ
  energy_consumption : ℚ
  outside_temp : ℚ
  deriving DecidableEq

/-- Embeds the `TimeOfUseRates` class (lines 27-39). -/
structure TimeOfUseRates where
  peak_rate : ℚ
  mid_peak_rate : ℚ
  off_peak_rate : ℚ
  demand_charge : ℚ
  deriving DecidableEq

/-- Embeds the `EnergyMetrics` dataclass (lines 15-25).  The Python field
`efficiency_ratio` is named `efficiency_quot` here. -/
structure EnergyMetrics where
  total_consumption : ℚ
  peak_demand : ℚ
  base_load : ℚ
  efficiency_quot : ℚ
  cost_per_kwh : ℚ
  demand_charges : ℚ
  total_cost : ℚ
  carbon_footprint : ℚ
  deriving DecidableEq

/-- The dict returned by `_calculate_energy_costs` (lines 245-251). -/
structure EnergyCosts where
  peak_cost : ℚ
  mid_peak_cost : ℚ
  off_peak_cost : ℚ
  demand_charges : ℚ
  total_cost : ℚ
  deriving DecidableEq

/-- `df['active_power'].max()` on a series; only used on non-empty series
(the empty case is unreachable behind the empty-data guard). -/
def listMaxQ : List ℚ → ℚ
  | [] => 0
  | x :: xs => xs.foldl max x

/-- Insertion of one element into a sorted list, for `sortQ`. -/
def insertSorted (x : ℚ) : List ℚ → List ℚ
  | [] => [x]
  | y :: ys => if x ≤ y then x :: y :: ys else y :: insertSorted x ys

/-- Insertion sort, ascending. -/
def sortQ (l : List ℚ) : List ℚ := l.foldr insertSorted []

/-- Floor of a non-negative rational as a natural number. -/
def ratFloorNat (x : ℚ) : ℕ := (x.num / (x.den : ℤ)).toNat

/-- `Series.quantile(q)` with pandas' default linear interpolation: on the
sorted values `s` of length `n`, position `q*(n-1)` is split into integer
part `i` and fraction `g`, giving `s[i] + g*(s[i+1] - s[i])`. -/
def quantileQ (q : ℚ) (l : List ℚ) : ℚ :=
  let s := sortQ l
  let pos := q * ((s.length : ℚ) - 1)
  let i := ratFloorNat pos
  let lo := s.getD i 0
  let hi := s.getD (i + 1) lo
  lo + (pos - (i : ℚ)) * (hi - lo)

/-- `_calculate_expected_consumption` (lines 206-219): heating degree-hours
below 20 °C at 0.5 kWh each, cooling degree-hours above 24 °C at 0.7 kWh
each, plus a 100 kWh base load. -/
def calculate_expected_consumption (pts : List EnergySeriesPoint) : ℚ :=
  let heating_degree_hours := (pts.map (fun p => max (20 - p.outside_temp) 0)).sum
  let cooling_degree_hours := (pts.map (fun p => max (p.outside_temp - 24) 0)).sum
  heating_degree_hours * 0.5 + cooling_degree_hours * 0.7 + 100

/-- Modelled from the spec sentence for claim C2:
"`expected_consumption` = `Σ max(18−outside_temp,0)*0.5 +
Σ max(outside_temp−24,0)*0.7 + 100`" — heating reference 18 °C, for
comparison with the code's `calculate_expected_consumption`. -/
def spec_expected_consumption (pts : List EnergySeriesPoint) : ℚ :=
  (pts.map (fun p => max (18 - p.outside_temp) 0 * 0.5)).sum +
    (pts.map (fun p => max (p.outside_temp - 24) 0 * 0.7)).sum + 100

/-- `df['hour'].between(14, 19)` (line 232): pandas `between` is inclusive. -/
def isPeakHour (h : ℕ) : Bool := decide (14 ≤ h ∧ h ≤ 19)

/-- `df['hour'].between(8, 13) | df['hour'].between(20, 22)` (lines 233-234). -/
def isMidPeakHour (h : ℕ) : Bool := decide ((8 ≤ h ∧ h ≤ 13) ∨ (20 ≤ h ∧ h ≤ 22))

/-- `~(peak_hours | mid_peak_hours)` (line 235). -/
def isOffPeakHour (h : ℕ) : Bool := !(isPeakHour h || isMidPeakHour h)

/-- `_calculate_energy_costs` (lines 221-251): band-classified consumption
priced at the band rates plus a demand charge on the maximum power draw. -/
def calculate_energy_costs (pts : List EnergySeriesPoint) (rates : TimeOfUseRates) : EnergyCosts :=
  let peak_cost :=
    ((pts.filter (fun p => isPeakHour p.hour)).map (fun p => p.energy_consumption)).sum *
      rates.peak_rate
  let mid_peak_cost :=
    ((pts.filter (fun p => isMidPeakHour p.hour)).map (fun p => p.energy_consumption)).sum *
      rates.mid_peak_rate
  let off_peak_cost :=
    ((pts.filter (fun p => isOffPeakHour p.hour)).map (fun p => p.energy_consumption)).sum *
      rates.off_peak_rate
  let demand_charges := listMaxQ (pts.map (fun p => p.active_power)) * rates.demand_charge
  { peak_cost := peak_cost
    mid_peak_cost := mid_peak_cost
    off_peak_cost := off_peak_cost
    demand_charges := demand_charges
    total_cost := peak_cost + mid_peak_cost + off_peak_cost + demand_charges }

/-- Body of `analyze_energy_consumption` (lines 70-111) before the outer
`except` wrapper: empty-series guard (lines 85-86), aggregate metrics
(lines 91-97), costs (line 100) and the returned record (lines 102-111). -/
def analyze_energy_consumption_inner (pts : List EnergySeriesPoint) (rates : TimeOfUseRates) :
    Except OptimizationError EnergyMetrics :=
  if pts.isEmpty then Except.error ⟨"No historical data available"⟩
  else
    let total_consumption := (pts.map (fun p => p.energy_consumption)).sum
    let peak_demand := listMaxQ (pts.map (fun p => p.active_power))
    let base_load := quantileQ (1 / 10) (pts.map (fun p => p.active_power))
    let expected := calculate_expected_consumption pts
    let costs := calculate_energy_costs pts rates
    Except.ok
      { total_consumption := total_consumption
        peak_demand := peak_demand
        base_load := base_load
        efficiency_quot := if 0 < expected then total_consumption / expected else 0
        cost_per_kwh := if 0 < total_consumption then costs.total_cost / total_consumption else 0
        demand_charges := costs.demand_charges
        total_cost := costs.total_cost
        carbon_footprint := total_consumption * 0.4 }

/-- `analyze_energy_consumption` (lines 70-114): any failure inside the `try`
block — including the typed empty-data error raised on line 86 — is caught by
the `except` on lines 113-114 and re-raised as an `OptimizationError` with a
wrapping message; it is never swallowed. -/
def analyze_energy_consumption (pts : List EnergySeriesPoint) (rates : TimeOfUseRates) :
    Except OptimizationError EnergyMetrics :=
  match analyze_energy_consumption_inner pts rates with
  | Except.error e => Except.error ⟨"Energy consumption analysis failed: " ++ e.msg⟩
  | Except.ok m => Except.ok m

/-- The default `self.rate_structure` (lines 63-68), which is also the rate
table of the C9 scenario. -/
def defaultRates : TimeOfUseRates :=
  { peak_rate := 0.25, mid_peak_rate := 0.15, off_peak_rate := 0.08, demand_charge := 15 }

/-- The C9 scenario series: 24 hourly points, hours 0-23, each with active
power 100 kW and consumption 100 kWh (outside temperature 20 °C). -/
def uniformSeries : List EnergySeriesPoint :=
  (List.range 24).map (fun h => ⟨h, 100, 100, 20⟩)

/-- The hour-of-day rate applied to each point by the band classification. -/
def hourRate (rates : TimeOfUseRates) (h : ℕ) : ℚ :=
  if isPeakHour h then rates.peak_rate
  else if isMidPeakHour h then rates.mid_peak_rate
  else rates.off_peak_rate

/-! ## Helper lemmas -/

theorem sum_map_mul_const {α : Type} (l : List α) (f : α → ℚ) (c : ℚ) :
    (l.map (fun x => f x * c)).sum = (l.map f).sum * c := by
  induction l with
  | nil => simp
  | cons a as ih =>
    simp only [List.map_cons, List.sum_cons, ih]
    ring

/-! ## Claims -/

/-- C2, counterexample: for the one-point series with outside temperature
19 degC the code (heating reference 20) yields 100.5 kWh while the claimed
formula (heating reference 18) yields 100 kWh, so the claimed equality fails. -/
theorem c2_heating_reference_counterexample :
    calculate_expected_consumption [⟨0, 100, 100, 19⟩] = 201 / 2 ∧
    spec_expected_consumption [⟨0, 100, 100, 19⟩] = 100 ∧
    calculate_expected_consumption [⟨0, 100, 100, 19⟩] ≠
      spec_expected_consumption [⟨0, 100, 100, 19⟩] := by
  norm_num [calculate_expected_consumption, spec_expected_consumption]

/-- C2, amended: for every input series the expected consumption equals the
sum over points of `max(20 − outside_temp, 0) * 0.5` plus the sum over points
of `max(outside_temp − 24, 0) * 0.7` plus the constant base load 100 — the
heating reference is 20 degC, not 18 degC. -/
theorem c2_expected_consumption_amended (pts : List EnergySeriesPoint) :
    calculate_expected_consumption pts =
      (pts.map (fun p => max (20 - p.outside_temp) 0 * 0.5)).sum +
        (pts.map (fun p => max (p.outside_temp - 24) 0 * 0.7)).sum + 100 := by
  simp only [calculate_expected_consumption, sum_map_mul_const]

/-- C7: for every hour `h < 24`, exactly one of the peak (14-19),
mid-peak (8-13 and 20-22) and off-peak (remaining) classifications holds,
so the three bands cover all 24 hours and are pairwise disjoint. -/
theorem c7_hour_band_partition (h : ℕ) (hh : h < 24) :
    ((if isPeakHour h then 1 else 0) : ℕ) + (if isMidPeakHour h then 1 else 0) +
      (if isOffPeakHour h then 1 else 0) = 1 := by
  revert h
  decide

/-- C7 witness at hour 3 (an off-peak hour). -/
theorem c7_hour_band_partition_witness :
    ((if isPeakHour 3 then 1 else 0) : ℕ) + (if isMidPeakHour 3 then 1 else 0) +
      (if isOffPeakHour 3 then 1 else 0) = 1 :=
  c7_hour_band_partition 3 (by decide)

/-- C8: on an empty historical series `analyze_energy_consumption` produces a
typed `OptimizationError` (the empty-data error raised on line 86, re-wrapped
by the outer handler on lines 113-114) and returns no metrics. -/
theorem c8_empty_series_error (rates : TimeOfUseRates) :
    analyze_energy_consumption [] rates =
      Except.error ⟨"Energy consumption analysis failed: No historical data available"⟩ := rfl

/-- C8 witness at the default rate table. -/
theorem c8_empty_series_error_witness :
    analyze_energy_consumption [] defaultRates =
      Except.error ⟨"Energy consumption analysis failed: No historical data available"⟩ :=
  c8_empty_series_error defaultRates

/-- C9: on the uniform series of 24 hourly points at 100 kW / 100 kWh under
the rate table {peak 0.25, mid-peak 0.15, off-peak 0.08, demand 15},
the analysis returns base load = peak demand = total/24 = 100, demand
charge 100 * 15, and a total cost equal to each hour's 100 kWh priced at its
band rate plus the demand charge: exactly 1857. -/
theorem c9_uniform_series_scenario :
    analyze_energy_consumption uniformSeries defaultRates = Except.ok
      { total_consumption := 2400
        peak_demand := 100
        base_load := 100
        efficiency_quot := 24
        cost_per_kwh := 1857 / 2400
        demand_charges := 100 * 15
        total_cost := 1857
        carbon_footprint := 960 } ∧
    (2400 : ℚ) / 24 = 100 ∧
    ((List.range 24).map (fun h => 100 * hourRate defaultRates h)).sum + 100 * 15 = 1857 := by
  refine ⟨?_, by norm_num, ?_⟩
  · norm_num [analyze_energy_consumption, analyze_energy_consumption_inner, uniformSeries,
      defaultRates, List.range_succ, calculate_expected_consumption, calculate_energy_costs,
      quantileQ, sortQ, insertSorted, ratFloorNat, Int.toNat, List.getD, listMaxQ,
      isPeakHour, isMidPeakHour, isOffPeakHour]
  · norm_num [hourRate, defaultRates, List.range_succ, isPeakHour, isMidPeakHour, isOffPeakHour]

/-- C10: with `energy_constraint = 0` (a falsy Python float) the energy filter
on line 286 never fires, so validation reduces to the preference check alone:
the result is exactly the preference-compliant candidates, each marked
validated, regardless of how large their declared energy impact is. -/
theorem c10_zero_energy_constraint_no_filter (metrics : ComfortMetrics)
    (prefOk : Recommendation → Bool) (recs : List Recommendation) :
    validate_recommendations metrics prefOk (some 0) recs =
      (recs.filter prefOk).map (fun r => { r with validated := true }) ∧
    ∀ r ∈ validate_recommendations metrics prefOk (some 0) recs, r.validated = true := by
  have key : validate_recommendations metrics prefOk (some 0) recs =
      (recs.filter prefOk).map (fun r => { r with validated := true }) := by
    induction recs with
    | nil => rfl
    | cons r rs ih =>
      simp only [validate_recommendations, pyTruthy]
      norm_num
      cases hp : prefOk r <;> simp [List.filter_cons, hp, ih]
  refine ⟨key, ?_⟩
  rw [key]
  intro r hr
  simp only [List.mem_map] at hr
  obtain ⟨s, _, rfl⟩ := hr
  rfl

/-! ## Comfort-engine helper lemmas -/

theorem ppd_of_ge_five (p : ℝ) : 5 ≤ ppd_of p := by
  have hx : -0.03353 * p ^ 4 - 0.2179 * p ^ 2 ≤ 0 := by
    nlinarith [sq_nonneg p, sq_nonneg (p ^ 2)]
  have h1 : Real.exp (-0.03353 * p ^ 4 - 0.2179 * p ^ 2) ≤ 1 := by
    calc Real.exp (-0.03353 * p ^ 4 - 0.2179 * p ^ 2) ≤ Real.exp 0 := Real.exp_le_exp.mpr hx
    _ = 1 := Real.exp_zero
  unfold ppd_of
  linarith

theorem ppd_of_lt_hundred (p : ℝ) : ppd_of p < 100 := by
  have h := Real.exp_pos (-0.03353 * p ^ 4 - 0.2179 * p ^ 2)
  unfold ppd_of
  linarith

theorem ppd_of_zero : ppd_of 0 = 5 := by
  unfold ppd_of
  norm_num

theorem ppd_of_strict_min (p : ℝ) (hp : p ≠ 0) : ppd_of 0 < ppd_of p := by
  have hp2 : 0 < p ^ 2 := (sq_nonneg p).lt_of_ne (Ne.symm (pow_ne_zero 2 hp))
  have hx : -0.03353 * p ^ 4 - 0.2179 * p ^ 2 < 0 := by nlinarith [sq_nonneg (p ^ 2)]
  have h1 : Real.exp (-0.03353 * p ^ 4 - 0.2179 * p ^ 2) < 1 := by
    calc Real.exp (-0.03353 * p ^ 4 - 0.2179 * p ^ 2) < Real.exp 0 := Real.exp_lt_exp.mpr hx
    _ = 1 := Real.exp_zero
  rw [ppd_of_zero]
  unfold ppd_of
  linarith

theorem metrics_ppd_eq (t h co2 v : ℝ) (mrt : Option ℝ) :
    (calculate_comfort_metrics t h co2 v mrt).ppd =
      ppd_of (calculate_comfort_metrics t h co2 v mrt).pmv := rfl

/-- The no-mean-radiant-temperature call succeeds whenever the clothing
surface temperature differs from the air temperature. -/
theorem metrics_run_ok (t h co2 v : ℝ)
    (hne : calc_tcl t clothing_insulation - t ≠ 0) :
    calculate_comfort_metrics_run t h co2 v none =
      Except.ok (calculate_comfort_metrics t h co2 v none) := by
  simp only [calculate_comfort_metrics_run, Option.getD_none]
  rw [if_neg hne]

/-! ## Comfort claims C3-C6 -/

/-- C5: the PPD field of every computed `ComfortMetrics` equals the spec's
clamped formula (the clamp is a no-op because the raw value always lies in
[5,100)), satisfies `0 ≤ PPD ≤ 100`, and is strictly minimal at PMV = 0. -/
theorem c5_ppd_properties (t h co2 v : ℝ) (mrt : Option ℝ) :
    (calculate_comfort_metrics t h co2 v mrt).ppd =
      ppd_spec_clamped (calculate_comfort_metrics t h co2 v mrt).pmv ∧
    0 ≤ (calculate_comfort_metrics t h co2 v mrt).ppd ∧
    (calculate_comfort_metrics t h co2 v mrt).ppd ≤ 100 ∧
    ((calculate_comfort_metrics t h co2 v mrt).pmv ≠ 0 →
      ppd_of 0 < (calculate_comfort_metrics t h co2 v mrt).ppd) := by
  have hppd := metrics_ppd_eq t h co2 v mrt
  set p := (calculate_comfort_metrics t h co2 v mrt).pmv with hp
  have h5 := ppd_of_ge_five p
  have h100 := ppd_of_lt_hundred p
  have hclamp : ppd_of p = ppd_spec_clamped p := by
    unfold ppd_spec_clamped
    unfold ppd_of at h5 h100 ⊢
    rw [min_eq_right (by linarith), max_eq_right (by linarith)]
  exact ⟨hppd.trans hclamp, by rw [hppd]; linarith, by rw [hppd]; linarith,
    fun hz => by rw [hppd]; exact ppd_of_strict_min p hz⟩

/-- C3, counterexample: at temperature 22 degC and humidity 50 % — both
strictly inside the optimal bands, where the claim demands deviation 0 —
the code returns temperature deviation 2 and humidity deviation 10. -/
theorem c3_inside_band_counterexample :
    (20 : ℝ) ≤ 22 ∧ (22 : ℝ) ≤ 24 ∧ (40 : ℝ) ≤ 50 ∧ (50 : ℝ) ≤ 60 ∧
    (calculate_comfort_metrics 22 50 400 0.1 none).temperature_deviation = 2 ∧
    (calculate_comfort_metrics 22 50 400 0.1 none).humidity_deviation = 10 := by
  refine ⟨by norm_num, by norm_num, by norm_num, by norm_num, ?_, ?_⟩
  · show temp_deviation 22 = 2
    unfold temp_deviation
    norm_num
  · show hum_deviation 50 = 10
    unfold hum_deviation
    norm_num

/-- C3, amended: the deviation fields equal the minimum of the distances to
the two edges of the optimal band.  Outside the band this agrees with the
claimed distance-to-nearest-edge value, but strictly inside the band it is
the (positive) distance to the nearer edge, not 0. -/
theorem c3_deviation_characterization (t h co2 v : ℝ) (mrt : Option ℝ) (m : ComfortMetrics)
    (hm : calculate_comfort_metrics_run t h co2 v mrt = Except.ok m) :
    m.temperature_deviation = min |t - 20| |t - 24| ∧
    m.humidity_deviation = min |h - 40| |h - 60| ∧
    (t < 20 ∨ 24 < t → m.temperature_deviation = band_distance t 20 24) ∧
    (h < 40 ∨ 60 < h → m.humidity_deviation = band_distance h 40 60) := by
  have hm2 : m = calculate_comfort_metrics t h co2 v mrt := by
    simp only [calculate_comfort_metrics_run] at hm
    split at hm
    · exact absurd hm (by simp)
    · simp only [Except.ok.injEq] at hm
      exact hm.symm
  subst hm2
  refine ⟨rfl, rfl, ?_, ?_⟩
  · rintro (ht | ht)
    · show temp_deviation t = band_distance t 20 24
      unfold temp_deviation band_distance
      rw [abs_of_neg (by linarith), abs_of_neg (by linarith),
        min_eq_left (by linarith), if_pos ht]
      ring
    · show temp_deviation t = band_distance t 20 24
      unfold temp_deviation band_distance
      rw [abs_of_pos (by linarith), abs_of_pos (by linarith),
        min_eq_right (by linarith), if_neg (by linarith), if_pos ht]
  · rintro (hh | hh)
    · show hum_deviation h = band_distance h 40 60
      unfold hum_deviation band_distance
      rw [abs_of_neg (by linarith), abs_of_neg (by linarith),
        min_eq_left (by linarith), if_pos hh]
      ring
    · show hum_deviation h = band_distance h 40 60
      unfold hum_deviation band_distance
      rw [abs_of_pos (by linarith), abs_of_pos (by linarith),
        min_eq_right (by linarith), if_neg (by linarith), if_pos hh]

/-- C3 witness at temperature 19 (below the band) and humidity 65 (above the
band): the deviations agree with the spec's distance-to-band values there. -/
theorem c3_deviation_characterization_witness :
    (calculate_comfort_metrics 19 65 400 0.1 none).temperature_deviation =
      band_distance 19 20 24 ∧
    (calculate_comfort_metrics 19 65 400 0.1 none).humidity_deviation =
      band_distance 65 40 60 := by
  have hok : calculate_comfort_metrics_run 19 65 400 0.1 none =
      Except.ok (calculate_comfort_metrics 19 65 400 0.1 none) :=
    metrics_run_ok 19 65 400 0.1
      (by norm_num [calc_tcl, calc_icl, clothing_insulation])
  have h := c3_deviation_characterization 19 65 400 0.1 none _ hok
  exact ⟨h.2.2.1 (Or.inl (by norm_num)), h.2.2.2 (Or.inr (by norm_num))⟩

/-- C4, counterexample: the metrics record with PMV 6 (and PPD 100, air
quality 0) yields a comfort score of −40, outside the claimed 0-100 range. -/
theorem c4_score_out_of_range_counterexample :
    calculate_comfort_score ⟨6, 100, 400, 0, 0, 0⟩ < 0 := by
  show temp_weight * (100 * (1 - |(6:ℝ)| / 3)) + humidity_weight * (100 - 100) +
      air_quality_weight * 0 < 0
  unfold temp_weight humidity_weight air_quality_weight
  norm_num

/-- C4, amended: the comfort score equals the spec's weighted blend exactly
(hence two runs on equal inputs give equal outputs), and it lies in [0,100]
whenever the metrics fields lie in their documented ranges (|PMV| ≤ 3,
0 ≤ PPD ≤ 100, 0 ≤ air quality ≤ 100); outside those ranges the score can
leave [0,100]. -/
theorem c4_score_blend_and_conditional_range (m : ComfortMetrics) :
    calculate_comfort_score m = comfort_score_spec m ∧
    (|m.pmv| ≤ 3 → 0 ≤ m.ppd → m.ppd ≤ 100 → 0 ≤ m.air_quality → m.air_quality ≤ 100 →
      0 ≤ calculate_comfort_score m ∧ calculate_comfort_score m ≤ 100) := by
  constructor
  · rfl
  · intro h1 h2 h3 h4 h5
    have h0 : 0 ≤ |m.pmv| := abs_nonneg _
    unfold calculate_comfort_score temp_weight humidity_weight air_quality_weight
    constructor <;> linarith

/-- C4 witness at the metrics record (PMV 0, PPD 5, air quality 100). -/
theorem c4_score_blend_witness :
    calculate_comfort_score ⟨0, 5, 400, 100, 0, 0⟩ =
      comfort_score_spec ⟨0, 5, 400, 100, 0, 0⟩ ∧
    (0 ≤ calculate_comfort_score ⟨0, 5, 400, 100, 0, 0⟩ ∧
      calculate_comfort_score ⟨0, 5, 400, 100, 0, 0⟩ ≤ 100) :=
  ⟨(c4_score_blend_and_conditional_range ⟨0, 5, 400, 100, 0, 0⟩).1,
    (c4_score_blend_and_conditional_range ⟨0, 5, 400, 100, 0, 0⟩).2
      (by norm_num) (by norm_num) (by norm_num) (by norm_num) (by norm_num)⟩

/-- C6: the degenerate case `tcl = tr` is reachable — choosing the mean
radiant temperature equal to the computed clothing surface temperature makes
the denominator of the `hr` computation exactly zero — and the code performs
the division unguarded, so the call errors out instead of treating `hr` as 0. -/
theorem c6_degenerate_division_reachable :
    calculate_comfort_metrics_run 20 50 400 0.1 (some (calc_tcl 20 clothing_insulation)) =
      Except.error ⟨"Failed to calculate comfort metrics: float division by zero"⟩ := by
  simp [calculate_comfort_metrics_run, Option.getD_some, sub_self]

/-! ## The in-band point: PMV blow-up and claim C1 -/

/-- At the in-band input (20 degC, 50 %, air speed 0.1) the thermal load `L`
is enormous: the water-vapour pressure `pa` enters in pascals (about 1169)
where the Fanger constants 5.73 and 5.87 expect kilopascal-scale values. -/
theorem load_at_inband_large : 1000 ≤ calc_load 20 20 50 0.1 1.2 1.0 := by
  have hE : (94297 : ℝ) / 51000 ≤ Real.exp (16.6536 - 4030.183 / (20 + 235)) := by
    have h := Real.add_one_le_exp (16.6536 - 4030.183 / (20 + 235))
    have h2 : (16.6536 : ℝ) - 4030.183 / (20 + 235) + 1 = 94297 / 51000 := by norm_num
    linarith
  have hS0 : 0 ≤ Real.sqrt 0.1 := Real.sqrt_nonneg _
  have hS : Real.sqrt 0.1 ≤ 0.317 := by
    nlinarith [Real.sq_sqrt (by norm_num : (0:ℝ) ≤ 0.1), hS0]
  unfold calc_load calc_pa calc_fcl calc_hc calc_tcl calc_icl
  nlinarith [hE, hS, hS0]

/-- Consequently the PMV at the in-band point is at least 10 — far outside
the −3..+3 range documented in the `ComfortMetrics` dataclass. -/
theorem pmv_at_inband_large : 10 ≤ calculate_pmv 20 20 50 0.1 1.2 1.0 := by
  have hL := load_at_inband_large
  have hF : 0 < Real.exp (-0.036 * (1.2 * 58.15)) := Real.exp_pos _
  unfold calculate_pmv
  nlinarith [hL, hF, mul_pos hF (by linarith : (0:ℝ) < calc_load 20 20 50 0.1 1.2 1.0)]

theorem inband_metrics_pmv_large :
    10 ≤ (calculate_comfort_metrics 20 50 400 0.1 none).pmv :=
  pmv_at_inband_large

/-- C1: at the in-band input (temperature 20, humidity 50, CO2 400, air
speed 0.1, mean radiant temperature omitted) the computation succeeds, but
the resulting comfort score is negative — not greater than 90 as claimed —
because the PMV term blows up (unit mismatch, see `load_at_inband_large`). -/
theorem c1_inband_round_trip_fails :
    calculate_comfort_metrics_run 20 50 400 0.1 none =
      Except.ok (calculate_comfort_metrics 20 50 400 0.1 none) ∧
    calculate_comfort_score (calculate_comfort_metrics 20 50 400 0.1 none) < 0 := by
  constructor
  · exact metrics_run_ok 20 50 400 0.1
      (by norm_num [calc_tcl, calc_icl, clothing_insulation])
  · set m := calculate_comfort_metrics 20 50 400 0.1 none with hmdef
    have hpmv : 10 ≤ m.pmv := inband_metrics_pmv_large
    have h5 : 5 ≤ m.ppd := by
      rw [metrics_ppd_eq]
      exact ppd_of_ge_five _
    have hair : m.air_quality = 100 := by
      show calculate_air_quality_index 400 = 100
      unfold calculate_air_quality_index
      norm_num
    have habs : |m.pmv| = m.pmv := abs_of_pos (by linarith)
    have hscore : calculate_comfort_score m =
        0.4 * (100 * (1 - |m.pmv| / 3)) + 0.3 * (100 - m.ppd) + 0.3 * m.air_quality := rfl
    rw [hscore, habs, hair]
    linarith

/-- C5 witness: at the in-band input the PMV is nonzero, so the strict-minimum
conclusion applies concretely, together with the lower bound on PPD. -/
theorem c5_ppd_properties_witness :
    ppd_of 0 < (calculate_comfort_metrics 20 50 400 0.1 none).ppd ∧
    0 ≤ (calculate_comfort_metrics 20 50 400 0.1 none).ppd := by
  have h := c5_ppd_properties 20 50 400 0.1 none
  refine ⟨h.2.2.2 ?_, h.2.1⟩
  have h10 := inband_metrics_pmv_large
  intro h0
  rw [h0] at h10
  norm_num at h10

/-- C10 witness: a candidate declaring a one-million energy impact passes
validation under `energy_constraint = 0` and is marked validated. -/
theorem c10_zero_energy_constraint_no_filter_witness :
    validate_recommendations ⟨0, 0, 0, 0, 0, 0⟩ (fun _ => true) (some 0)
        [⟨some 1000000, false, 0⟩] = [⟨some 1000000, true, 0⟩] ∧
    ∀ r ∈ validate_recommendations ⟨0, 0, 0, 0, 0, 0⟩ (fun _ => true) (some 0)
        [⟨some 1000000, false, 0⟩], r.validated = true := by
  have h := c10_zero_energy_constraint_no_filter ⟨0, 0, 0, 0, 0, 0⟩ (fun _ => true)
    [⟨some 1000000, false, 0⟩]
  exact ⟨h.1.trans rfl, h.2⟩

end PowerOP
